import Mathlib

/-!
Verification of the ice-cream shop backend (`main.py`, `schemas.py`).

The document values that flow through the store and the ID normalizer are
JSON-like: null, booleans, numbers, strings, BSON ObjectIds, lists and
(ordered) string-keyed maps.  Python floats are modelled as exact rationals;
Python dicts as association lists, which preserves insertion order exactly as
CPython dicts do.  An `ObjectId` is modelled as carrying the string that
`str(oid)` would produce.
-/

namespace IcecreamShop

/-- A JSON/BSON-like document value, as handled by `ObjectIdEncoder.encode`
and stored in collections. -/
inductive Value where
  | null : Value
  | bool (b : Bool) : Value
  | num (q : ℚ) : Value
  | str (s : String) : Value
  | objectId (s : String) : Value
  | list (vs : List Value) : Value
  | dict (kvs : List (String × Value)) : Value
  deriving Repr

mutual

/-- Boolean equality on values (the derive handler does not support this
nested inductive, so it is spelled out). -/
def beqV : Value → Value → Bool
  | Value.null, Value.null => true
  | Value.bool a, Value.bool b => a == b
  | Value.num a, Value.num b => a == b
  | Value.str a, Value.str b => a == b
  | Value.objectId a, Value.objectId b => a == b
  | Value.list a, Value.list b => beqL a b
  | Value.dict a, Value.dict b => beqD a b
  | _, _ => false

/-- Boolean equality on lists of values. -/
def beqL : List Value → List Value → Bool
  | [], [] => true
  | a :: as, b :: bs => beqV a b && beqL as bs
  | _, _ => false

/-- Boolean equality on association lists of values. -/
def beqD : List (String × Value) → List (String × Value) → Bool
  | [], [] => true
  | (k1, v1) :: as, (k2, v2) :: bs => k1 == k2 && beqV v1 v2 && beqD as bs
  | _, _ => false

end

mutual

theorem beqV_iff : ∀ a b : Value, beqV a b = true ↔ a = b
  | Value.null, b => by cases b <;> simp [beqV]
  | Value.bool a, b => by cases b <;> simp [beqV]
  | Value.num a, b => by cases b <;> simp [beqV]
  | Value.str a, b => by cases b <;> simp [beqV]
  | Value.objectId a, b => by cases b <;> simp [beqV]
  | Value.list a, b => by
      cases b <;> simp [beqV]
      exact beqL_iff a _
  | Value.dict a, b => by
      cases b <;> simp [beqV]
      exact beqD_iff a _

theorem beqL_iff : ∀ a b : List Value, beqL a b = true ↔ a = b
  | [], b => by cases b <;> simp [beqL]
  | x :: xs, b => by
      cases b with
      | nil => simp [beqL]
      | cons y ys =>
          simp only [beqL, Bool.and_eq_true, beqV_iff x y, beqL_iff xs ys,
            List.cons.injEq]

theorem beqD_iff : ∀ a b : List (String × Value), beqD a b = true ↔ a = b
  | [], b => by cases b <;> simp [beqD]
  | (k, v) :: xs, b => by
      cases b with
      | nil => simp [beqD]
      | cons y ys =>
          cases y with
          | mk k2 v2 =>
              simp only [beqD, Bool.and_eq_true, beqV_iff v v2, beqD_iff xs ys,
                List.cons.injEq, beq_iff_eq, Prod.mk.injEq]

end

instance : DecidableEq Value := fun a b => decidable_of_iff _ (beqV_iff a b)

/-! ### ObjectIdEncoder.encode (main.py lines 23–38)

The Python code is:
```
if isinstance(doc, list): return [encode(d) for d in doc]
if isinstance(doc, dict):
    new_doc = \x7b\x7d
    for k, v in doc.items():
        if isinstance(v, ObjectId): new_doc[k] = str(v)
        elif isinstance(v, list) or isinstance(v, dict): new_doc[k] = encode(v)
        else: new_doc[k] = v
    return new_doc
return doc
```
-/

mutual

/-- Translation of `ObjectIdEncoder.encode`: a list maps `encode` over its
elements, a dict is rebuilt key by key (ObjectId values become strings,
list/dict values recurse, anything else is copied), and any other value is
returned unchanged. -/
def encode : Value → Value
  | Value.list vs => Value.list (encodeList vs)
  | Value.dict kvs => Value.dict (encodeDict kvs)
  | v => v

/-- The list comprehension `[encode(d) for d in doc]`. -/
def encodeList : List Value → List Value
  | [] => []
  | v :: vs => encode v :: encodeList vs

/-- The dict-rebuilding loop of `encode`. -/
def encodeDict : List (String × Value) → List (String × Value)
  | [] => []
  | (k, Value.objectId s) :: rest => (k, Value.str s) :: encodeDict rest
  | (k, Value.list vs) :: rest => (k, encode (Value.list vs)) :: encodeDict rest
  | (k, Value.dict kvs) :: rest => (k, encode (Value.dict kvs)) :: encodeDict rest
  | (k, v) :: rest => (k, v) :: encodeDict rest

end

mutual

/-- What claim C2 says `encode` does, written from the spec's words: every
ObjectId, wherever it occurs, is replaced by its string representation, with
lists and maps walked recursively and scalars otherwise unchanged. -/
def encodeClaimed : Value → Value
  | Value.objectId s => Value.str s
  | Value.list vs => Value.list (encodeClaimedList vs)
  | Value.dict kvs => Value.dict (encodeClaimedDict kvs)
  | v => v

/-- Pointwise `encodeClaimed` on a list. -/
def encodeClaimedList : List Value → List Value
  | [] => []
  | v :: vs => encodeClaimed v :: encodeClaimedList vs

/-- Pointwise `encodeClaimed` on the values of an association list. -/
def encodeClaimedDict : List (String × Value) → List (String × Value)
  | [] => []
  | (k, v) :: rest => (k, encodeClaimed v) :: encodeClaimedDict rest

end

mutual

/-- The amended contract of the normalizer: lists and maps are walked
recursively and rebuilt in order; an ObjectId occurring as a direct value of
a map becomes its string representation; every other value — including an
ObjectId at the top level or as a list element — passes through unchanged. -/
def encodeAmended : Value → Value
  | Value.list vs => Value.list (encodeAmendedList vs)
  | Value.dict kvs => Value.dict (encodeAmendedDict kvs)
  | v => v

/-- Pointwise `encodeAmended` on a list (list elements are never converted
directly, only recursed into). -/
def encodeAmendedList : List Value → List Value
  | [] => []
  | v :: vs => encodeAmended v :: encodeAmendedList vs

/-- Map values: a direct ObjectId value becomes a string, anything else is
normalized recursively (which leaves scalars unchanged). -/
def encodeAmendedDict : List (String × Value) → List (String × Value)
  | [] => []
  | (k, Value.objectId s) :: rest => (k, Value.str s) :: encodeAmendedDict rest
  | (k, v) :: rest => (k, encodeAmended v) :: encodeAmendedDict rest

end

mutual

theorem encode_eq_amended : ∀ v : Value, encode v = encodeAmended v
  | Value.null => rfl
  | Value.bool _ => rfl
  | Value.num _ => rfl
  | Value.str _ => rfl
  | Value.objectId _ => rfl
  | Value.list vs => by
      simp only [encode, encodeAmended, encodeList_eq_amended vs]
  | Value.dict kvs => by
      simp only [encode, encodeAmended, encodeDict_eq_amended kvs]

theorem encodeList_eq_amended : ∀ vs : List Value, encodeList vs = encodeAmendedList vs
  | [] => rfl
  | v :: vs => by
      simp only [encodeList, encodeAmendedList, encode_eq_amended v,
        encodeList_eq_amended vs]

theorem encodeDict_eq_amended :
    ∀ kvs : List (String × Value), encodeDict kvs = encodeAmendedDict kvs
  | [] => rfl
  | (k, v) :: rest => by
      cases v with
      | null => simp only [encodeDict, encodeAmendedDict, encodeAmended,
          encodeDict_eq_amended rest]
      | bool b => simp only [encodeDict, encodeAmendedDict, encodeAmended,
          encodeDict_eq_amended rest]
      | num q => simp only [encodeDict, encodeAmendedDict, encodeAmended,
          encodeDict_eq_amended rest]
      | str s => simp only [encodeDict, encodeAmendedDict, encodeAmended,
          encodeDict_eq_amended rest]
      | objectId s => simp only [encodeDict, encodeAmendedDict,
          encodeDict_eq_amended rest]
      | list vs => simp only [encodeDict, encodeAmendedDict,
          encode_eq_amended (Value.list vs), encodeDict_eq_amended rest]
      | dict kvs2 => simp only [encodeDict, encodeAmendedDict,
          encode_eq_amended (Value.dict kvs2), encodeDict_eq_amended rest]

end

mutual

theorem encode_encode : ∀ v : Value, encode (encode v) = encode v
  | Value.null => rfl
  | Value.bool _ => rfl
  | Value.num _ => rfl
  | Value.str _ => rfl
  | Value.objectId _ => rfl
  | Value.list vs => by
      simp only [encode, encodeList_encodeList vs]
  | Value.dict kvs => by
      simp only [encode, encodeDict_encodeDict kvs]

theorem encodeList_encodeList :
    ∀ vs : List Value, encodeList (encodeList vs) = encodeList vs
  | [] => rfl
  | v :: vs => by
      simp only [encodeList, encode_encode v, encodeList_encodeList vs]

theorem encodeDict_encodeDict :
    ∀ kvs : List (String × Value), encodeDict (encodeDict kvs) = encodeDict kvs
  | [] => rfl
  | (k, v) :: rest => by
      cases v with
      | null => simp only [encodeDict, encodeDict_encodeDict rest]
      | bool b => simp only [encodeDict, encodeDict_encodeDict rest]
      | num q => simp only [encodeDict, encodeDict_encodeDict rest]
      | str s => simp only [encodeDict, encodeDict_encodeDict rest]
      | objectId s => simp only [encodeDict, encodeDict_encodeDict rest]
      | list vs =>
          simp only [encodeDict, encode, encodeList_encodeList vs,
            encodeDict_encodeDict rest]
      | dict kvs2 =>
          simp only [encodeDict, encode, encodeDict_encodeDict kvs2,
            encodeDict_encodeDict rest]

end

/-! ### Document Store Gateway

`main.py` imports `db`, `create_document` and `get_documents` from
`database.py`, which is not part of the sources.  The gateway is therefore
modelled from the spec (§4.2). -/

/-- Modelled from the spec: the Document Store Gateway of `database.py`
(absent from the sources).  §4.2: the store groups documents into named
collections; `getDocuments` returns all documents of a collection in
insertion order ("insertion order or better").  The store state is a map from
collection name to the list of documents inserted so far; the store is taken
to be available and reachable (the spec's `StoreUnavailable` failure mode is
out of scope of the modelled claims). -/
structure Store where
  docs : String → List Value

/-- The store before any document has been inserted. -/
def Store.empty : Store := ⟨fun _ => []⟩

/-- Modelled from the spec: `create_document(collection_name, document)`
inserts one document into the named collection and returns its assigned
identity as a string (§4.2).  Identities are modelled as the insertion index
rendered as a string; their only property used anywhere is being a string. -/
def create_document (st : Store) (coll : String) (doc : Value) : String × Store :=
  (toString (st.docs coll).length,
    ⟨fun c => if c = coll then st.docs c ++ [doc] else st.docs c⟩)

/-- Modelled from the spec: `get_documents(collection_name)` returns all
documents in the named collection (§4.2). -/
def get_documents (st : Store) (coll : String) : List Value := st.docs coll

/-! ### Schemas (schemas.py) -/

/-- The raw body of a Flavor creation input: `none` marks an omitted
optional field. `name` and `price` are required by the schema. -/
structure IcecreamInput where
  name : String
  description : Option String
  price : ℚ
  tags : Option (List String)
  image : Option String
  is_available : Option Bool

/-- schemas.py `Icecream`: a validated Flavor document. -/
structure Icecream where
  name : String
  description : Option String
  price : ℚ
  tags : List String
  image : Option String
  is_available : Bool
  deriving DecidableEq, Repr

/-- Pydantic validation of an `Icecream` body: `price` carries `ge=0`;
omitted `tags` defaults to the empty list (`default_factory=list`), omitted
`is_available` defaults to `True`, omitted `description`/`image` default to
`None`. -/
def parse_icecream (inp : IcecreamInput) : Except String Icecream :=
  if inp.price < 0 then Except.error "ValidationError: price must be >= 0"
  else Except.ok ⟨inp.name, inp.description, inp.price, inp.tags.getD [],
    inp.image, inp.is_available.getD true⟩

/-- schemas.py `OrderItem`: flavor_id and name are strings, `scoops` an
integer with `ge=1, le=5`, `price` a number with `ge=0`. -/
structure OrderItem where
  flavor_id : String
  name : String
  scoops : Int
  price : ℚ
  deriving DecidableEq, Repr

/-- Pydantic validation of one `OrderItem`: `scoops` in [1,5] and
`price >= 0`. -/
def OrderItem.valid (it : OrderItem) : Bool :=
  decide (1 ≤ it.scoops) && decide (it.scoops ≤ 5) && decide (0 ≤ it.price)

/-- main.py `CreateOrder`: the request body of POST /api/orders.  It has no
`total` field, and its `items` field carries no non-emptiness constraint. -/
structure CreateOrder where
  customer_name : String
  customer_phone : String
  items : List OrderItem
  notes : Option String
  deriving DecidableEq, Repr

/-- Pydantic validation of a `CreateOrder` body: every item must satisfy the
`OrderItem` constraints; the list itself may have any length. -/
def CreateOrder.valid (p : CreateOrder) : Bool := p.items.all OrderItem.valid

/-- main.py `OrderResponse`. -/
structure OrderResponse where
  order_id : String
  total : ℚ
  deriving DecidableEq, Repr

/-! ### POST /api/orders (main.py lines 166–189) -/

/-- The endpoint's total: `sum(item.price * item.scoops for item in
payload.items)` — Python's `sum` is a left fold starting at 0. -/
def orderTotal (items : List OrderItem) : ℚ :=
  items.foldl (fun acc it => acc + it.price * (it.scoops : ℚ)) 0

/-- The `OrderItem` document as stored inside an order. -/
def orderItemValue (it : OrderItem) : Value :=
  Value.dict [("flavor_id", Value.str it.flavor_id), ("name", Value.str it.name),
    ("scoops", Value.num (it.scoops : ℚ)), ("price", Value.num it.price)]

/-- The `Order` document built by the endpoint (schemas.py `Order`). -/
def orderValue (p : CreateOrder) (total : ℚ) : Value :=
  Value.dict [("customer_name", Value.str p.customer_name),
    ("customer_phone", Value.str p.customer_phone),
    ("items", Value.list (p.items.map orderItemValue)),
    ("total", Value.num total),
    ("notes", match p.notes with | some s => Value.str s | none => Value.null)]

/-- main.py `create_order_endpoint`: computes the total server-side,
constructs the `Order` document (whose pydantic `total` field carries
`ge=0`, so a negative total would fail validation there), inserts it into
the `order` collection and returns the identity with the computed total. -/
def create_order_endpoint (st : Store) (p : CreateOrder) :
    Except String OrderResponse × Store :=
  let total := orderTotal p.items
  if total < 0 then (Except.error "ValidationError: total must be >= 0", st)
  else
    let r := create_document st "order" (orderValue p total)
    (Except.ok ⟨r.1, total⟩, r.2)

/-- The full POST /api/orders pipeline: FastAPI validates the body against
`CreateOrder` before the endpoint runs; a validation failure rejects the
request with no store interaction (the store is returned unchanged). -/
def post_api_orders (st : Store) (p : CreateOrder) :
    Except String OrderResponse × Store :=
  if p.valid then create_order_endpoint st p
  else (Except.error "RequestValidationError", st)

/-! ### POST /api/flavors/seed (main.py lines 113–162) -/

/-- main.py `SeedResponse`. -/
structure SeedResponse where
  inserted : Nat
  deriving DecidableEq, Repr

/-- The fixed demo-flavor documents of `seed_flavors`, in source order. -/
def seedDocs : List Value :=
  [Value.dict [("name", Value.str "Vanilla Bean"),
    ("description", Value.str "Classic Madagascar vanilla with real bean specks"),
    ("price", Value.num 3.5),
    ("tags", Value.list [Value.str "classic", Value.str "creamy"]),
    ("image", Value.str "https://images.unsplash.com/photo-1563805042-7684c019e1cb"),
    ("is_available", Value.bool true)],
   Value.dict [("name", Value.str "Dark Chocolate"),
    ("description", Value.str "70% cocoa, rich and indulgent"),
    ("price", Value.num 3.75),
    ("tags", Value.list [Value.str "chocolate", Value.str "rich"]),
    ("image", Value.str "https://images.unsplash.com/photo-1551024601-bec78aea704b"),
    ("is_available", Value.bool true)],
   Value.dict [("name", Value.str "Strawberry Swirl"),
    ("description", Value.str "Fresh strawberries and ribbons of jam"),
    ("price", Value.num 3.75),
    ("tags", Value.list [Value.str "fruit", Value.str "fresh"]),
    ("image", Value.str "https://images.unsplash.com/photo-1497051788611-2c64812349b4"),
    ("is_available", Value.bool true)],
   Value.dict [("name", Value.str "Mint Choco Chip"),
    ("description", Value.str "Cool mint with dark chocolate chunks"),
    ("price", Value.num 3.75),
    ("tags", Value.list [Value.str "mint", Value.str "choco"]),
    ("image", Value.str "https://images.unsplash.com/photo-1625944528146-0f4fee2f8559"),
    ("is_available", Value.bool true)]]

/-- main.py `seed_flavors`: if `icecream` already holds a document, insert
nothing and report 0; otherwise insert the 4 fixed demo flavors one by one,
counting the insertions. -/
def seed_flavors (st : Store) : SeedResponse × Store :=
  let existing := (st.docs "icecream").length
  if existing > 0 then (⟨0⟩, st)
  else
    let r := seedDocs.foldl
      (fun (acc : Nat × Store) doc =>
        (acc.1 + 1, (create_document acc.2 "icecream" doc).2)) (0, st)
    (⟨r.1⟩, r.2)

/-- main.py `get_flavors`: fetch all `icecream` documents and normalize. -/
def get_flavors (st : Store) : Value :=
  encode (Value.list (get_documents st "icecream"))

/-- First value bound to a key in a document, mirroring Python dict lookup. -/
def getField (v : Value) (key : String) : Option Value :=
  match v with
  | Value.dict kvs => (kvs.find? fun kv => kv.1 == key).map Prod.snd
  | _ => none

/-! ### GET /test (main.py lines 47–75) -/

/-- The state of the store handle as observed by `test_database`:
the handle is `None` (absent/uninitialized); the handle exists but
`list_collection_names()` raises with some message (unreachable store); or
the handle works and lists collections.  In the latter two states the handle
may or may not expose a `name` attribute (`hasattr(db, 'name')`). -/
inductive DbState where
  | absent : DbState
  | listFails (name : Option String) (msg : String) : DbState
  | working (name : Option String) (cols : List String) : DbState
  deriving DecidableEq, Repr

/-- Python string slicing `s[:n]`: the first `n` characters. -/
def takeChars (n : Nat) (s : String) : String := (s.toList.take n).asString

/-- Python truthiness of `os.getenv("DATABASE_URL")`: the variable must be
set and non-empty. -/
def envTruthy : Option String → Bool
  | none => false
  | some s => !s.isEmpty

/-- The diagnostic response of GET /test. -/
structure TestResponse where
  backend : String
  database : String
  database_url : Option String
  database_name : Option String
  connection_status : String
  collections : List String
  deriving DecidableEq, Repr

/-- main.py `test_database`, as a function of the `DATABASE_URL` environment
variable and the observed store state.  Every failure path is caught and
downgraded to a descriptive string: the function is total over all states
(the Python outer `except` guards code that cannot itself raise, so the
three states above exhaust its behaviors).  Error text is truncated to 50
characters and the collection list to 10 names. -/
def test_database (dbUrl : Option String) (s : DbState) : TestResponse :=
  match s with
  | DbState.absent =>
      ⟨"✅ Running", "⚠️  Available but not initialized", none, none,
        "Not Connected", []⟩
  | DbState.listFails name msg =>
      ⟨"✅ Running", "⚠️  Connected but Error: " ++ takeChars 50 msg,
        some (if envTruthy dbUrl then "✅ Set" else "❌ Not Set"),
        some (name.getD "✅ Connected"), "Connected", []⟩
  | DbState.working name cols =>
      ⟨"✅ Running", "✅ Connected & Working",
        some (if envTruthy dbUrl then "✅ Set" else "❌ Not Set"),
        some (name.getD "✅ Connected"), "Connected", cols.take 10⟩

/-! ## Helper lemmas -/

theorem foldl_add_eq (f : OrderItem → ℚ) :
    ∀ (l : List OrderItem) (c : ℚ),
      l.foldl (fun acc it => acc + f it) c = c + (l.map f).sum
  | [], c => by simp
  | x :: xs, c => by
      simp [List.foldl_cons, foldl_add_eq f xs, add_assoc]

theorem orderTotal_eq_sum (items : List OrderItem) :
    orderTotal items = (items.map fun it => it.price * (it.scoops : ℚ)).sum := by
  simpa [orderTotal] using foldl_add_eq _ items 0

theorem orderItem_valid_iff (it : OrderItem) :
    it.valid = true ↔ 1 ≤ it.scoops ∧ it.scoops ≤ 5 ∧ 0 ≤ it.price := by
  simp [OrderItem.valid, and_assoc]

theorem orderTotal_nonneg (items : List OrderItem)
    (h : items.all OrderItem.valid = true) : 0 ≤ orderTotal items := by
  rw [orderTotal_eq_sum]
  apply List.sum_nonneg
  intro x hx
  simp only [List.mem_map] at hx
  obtain ⟨it, hmem, rfl⟩ := hx
  have hv := (orderItem_valid_iff it).mp (List.all_eq_true.mp h it hmem)
  have hs : (0 : ℚ) ≤ (it.scoops : ℚ) := by
    have : (0 : ℤ) ≤ it.scoops := le_trans zero_le_one hv.1
    exact_mod_cast this
  exact mul_nonneg hv.2.2 hs

theorem seed_flavors_of_empty (st : Store) (h : st.docs "icecream" = []) :
    (seed_flavors st).1 = ⟨4⟩ ∧ (seed_flavors st).2.docs "icecream" = seedDocs := by
  constructor <;> simp [seed_flavors, create_document, seedDocs, h, List.foldl]

/-! ## Claims -/

/-- The spec's worked example document `[\x7b_id: X, tags: [a,b]\x7d]`. -/
def exampleDoc : Value :=
  Value.list [Value.dict [("_id", Value.objectId "X"),
    ("tags", Value.list [Value.str "a", Value.str "b"])]]

/-- C2 (counterexample): `ObjectIdEncoder.encode` does not replace an
ObjectId wherever it occurs — an ObjectId that is a direct element of a list
(here, the one-element list holding ObjectId "507f1f77bcf86cd799439011")
passes through unchanged, while the claimed contract would turn it into its
string form. -/
theorem C2_counterexample :
    encode (Value.list [Value.objectId "507f1f77bcf86cd799439011"]) =
      Value.list [Value.objectId "507f1f77bcf86cd799439011"] ∧
    encodeClaimed (Value.list [Value.objectId "507f1f77bcf86cd799439011"]) =
      Value.list [Value.str "507f1f77bcf86cd799439011"] ∧
    encode (Value.list [Value.objectId "507f1f77bcf86cd799439011"]) ≠
      encodeClaimed (Value.list [Value.objectId "507f1f77bcf86cd799439011"]) := by
  decide

/-- C2 (amended): for every value, `ObjectIdEncoder.encode` returns a
structurally identical value, walking lists and maps recursively and keeping
map key order, in which exactly the ObjectIds occurring as direct values of a
map are replaced by their string representation; an ObjectId at the top level
or as a list element, and every other scalar, passes through unchanged
(`encodeAmended` is that contract written out). -/
theorem C2_encode_amended_contract : ∀ v : Value, encode v = encodeAmended v :=
  encode_eq_amended

/-- C5: ID normalization is idempotent — `encode (encode v) = encode v` for
every value; in particular, normalizing the spec's example
`[\x7b_id: X, tags: [a,b]\x7d]` twice yields the same structure both times,
with `tags` unchanged and `_id` replaced by its string form. -/
theorem C5_encode_idempotent :
    (∀ v : Value, encode (encode v) = encode v) ∧
    encode (encode exampleDoc) = encode exampleDoc ∧
    encode exampleDoc =
      Value.list [Value.dict [("_id", Value.str "X"),
        ("tags", Value.list [Value.str "a", Value.str "b"])]] :=
  ⟨encode_encode, encode_encode exampleDoc, by decide⟩

/-- The spec's example order item `\x7bflavor_id:"1", name:"Vanilla Bean",
scoops:2, price:3.5\x7d`. -/
def vanillaItem : OrderItem := ⟨"1", "Vanilla Bean", 2, 3.5⟩

/-- A request carrying only the spec's example item. -/
def vanillaOrder : CreateOrder := ⟨"Alice", "555-0100", [vanillaItem], none⟩

/-- A request whose `items` list is empty. -/
def emptyItemsOrder : CreateOrder := ⟨"Alice", "555-0100", [], none⟩

/-- A store whose every collection holds one document. -/
def oneDocStore : Store := ⟨fun _ => [Value.null]⟩

/-- C1: for every store and every valid POST /api/orders request, the
request is accepted and the returned `total` equals the sum over all items
of price × scoops, computed server-side (the request shape `CreateOrder` has
no total field); for the spec's single-item example the returned total
is 7. -/
theorem C1_order_total :
    (∀ (st : Store) (p : CreateOrder), p.valid = true →
      ∃ r : OrderResponse, (post_api_orders st p).1 = Except.ok r ∧
        r.total = (p.items.map fun it => it.price * (it.scoops : ℚ)).sum) ∧
    (post_api_orders Store.empty vanillaOrder).1 = Except.ok ⟨"0", 7⟩ := by
  constructor
  · intro st p h
    have hn : ¬ orderTotal p.items < 0 := not_lt.mpr (orderTotal_nonneg p.items h)
    refine ⟨⟨(create_document st "order" (orderValue p (orderTotal p.items))).1,
      orderTotal p.items⟩, ?_, orderTotal_eq_sum p.items⟩
    simp only [post_api_orders, h, if_true, create_order_endpoint, if_neg hn]
  · with_unfolding_all rfl

/-- C1 witness: the spec's concrete example request is valid, is accepted,
and its returned total is the sum of price × scoops over its items. -/
theorem C1_order_total_witness :
    vanillaOrder.valid = true ∧
    ∃ r : OrderResponse, (post_api_orders Store.empty vanillaOrder).1 = Except.ok r ∧
      r.total = (vanillaOrder.items.map fun it => it.price * (it.scoops : ℚ)).sum :=
  ⟨by with_unfolding_all decide,
    C1_order_total.1 Store.empty vanillaOrder (by with_unfolding_all decide)⟩

/-- C3 (counterexample): a POST /api/orders request with an empty `items`
list is not rejected — the pipeline accepts it, returns total 0, and stores
one order document, so no validation failure occurs and the store is
touched. -/
theorem C3_counterexample :
    (post_api_orders Store.empty emptyItemsOrder).1 = Except.ok ⟨"0", 0⟩ ∧
    ((post_api_orders Store.empty emptyItemsOrder).2.docs "order").length = 1 :=
  ⟨by with_unfolding_all rfl, by with_unfolding_all rfl⟩

/-- C3 (amended): neither `CreateOrder` nor `Order` constrains `items` to be
non-empty: for every store, a request with an empty items list passes
validation, is accepted with total 0, and appends one order document. -/
theorem C3_amended_empty_items (st : Store) (nm ph : String) (notes : Option String) :
    ∃ r : OrderResponse,
      (post_api_orders st ⟨nm, ph, [], notes⟩).1 = Except.ok r ∧ r.total = 0 ∧
      ((post_api_orders st ⟨nm, ph, [], notes⟩).2.docs "order").length =
        (st.docs "order").length + 1 := by
  refine ⟨⟨toString (st.docs "order").length, 0⟩, ?_, rfl, ?_⟩
  · simp [post_api_orders, CreateOrder.valid, create_order_endpoint, orderTotal,
      create_document]
  · simp [post_api_orders, CreateOrder.valid, create_order_endpoint, orderTotal,
      create_document]

/-- C4: seeding is idempotent and all-or-nothing — a non-empty `icecream`
collection makes seeding a no-op reporting 0; an empty one receives exactly
the 4 demo flavors, reported as 4; the report is always 0 or 4; and two
successive calls from the empty store report 4 then 0 and leave exactly 4
documents. -/
theorem C4_seed_idempotent :
    (∀ st : Store, 0 < (st.docs "icecream").length → seed_flavors st = (⟨0⟩, st)) ∧
    (∀ st : Store, st.docs "icecream" = [] →
      (seed_flavors st).1 = ⟨4⟩ ∧
      ((seed_flavors st).2.docs "icecream").length = 4) ∧
    (∀ st : Store, (seed_flavors st).1.inserted = 0 ∨ (seed_flavors st).1.inserted = 4) ∧
    ((seed_flavors Store.empty).1.inserted = 4 ∧
      (seed_flavors (seed_flavors Store.empty).2).1.inserted = 0 ∧
      ((seed_flavors (seed_flavors Store.empty).2).2.docs "icecream").length = 4) := by
  refine ⟨?_, ?_, ?_, ?_, ?_, ?_⟩
  · intro st h
    simp only [seed_flavors]
    rw [if_pos h]
  · intro st h
    obtain ⟨h1, h2⟩ := seed_flavors_of_empty st h
    exact ⟨h1, by rw [h2]; rfl⟩
  · intro st
    by_cases hc : 0 < (st.docs "icecream").length
    · left
      simp only [seed_flavors]
      rw [if_pos hc]
    · right
      have he : st.docs "icecream" = [] :=
        List.length_eq_zero.mp (Nat.eq_zero_of_not_pos hc)
      rw [(seed_flavors_of_empty st he).1]
  · with_unfolding_all decide
  · with_unfolding_all decide
  · with_unfolding_all decide

/-- C4 witness: a store with a non-empty `icecream` collection is left
untouched with 0 reported, and the empty store receives the 4 demo
flavors. -/
theorem C4_seed_idempotent_witness :
    (0 < (oneDocStore.docs "icecream").length ∧
      seed_flavors oneDocStore = (⟨0⟩, oneDocStore)) ∧
    (Store.empty.docs "icecream" = [] ∧ (seed_flavors Store.empty).1 = ⟨4⟩) :=
  ⟨⟨by decide, C4_seed_idempotent.1 oneDocStore (by decide)⟩,
    ⟨rfl, (C4_seed_idempotent.2.1 Store.empty rfl).1⟩⟩

/-- C6: GET /test is a total function of the store state — every failure
path yields a descriptive `database` string instead of a fault: the
collection list never exceeds 10 names, a listing error is reported as text
truncated to at most 50 characters, and an uninitialized store yields the
degraded text, never an error. -/
theorem C6_test_never_faults :
    (∀ (url : Option String) (s : DbState),
      (test_database url s).collections.length ≤ 10) ∧
    (∀ (url : Option String) (nm : Option String) (msg : String),
      (test_database url (DbState.listFails nm msg)).database =
        "⚠️  Connected but Error: " ++ takeChars 50 msg ∧
      (takeChars 50 msg).length ≤ 50) ∧
    (∀ url : Option String,
      (test_database url DbState.absent).database =
        "⚠️  Available but not initialized") := by
  refine ⟨?_, ?_, ?_⟩
  · intro url s
    cases s with
    | absent => simp [test_database]
    | listFails nm msg => simp [test_database]
    | working nm cols =>
        show (cols.take 10).length ≤ 10
        rw [List.length_take]
        exact min_le_left _ _
  · intro url nm msg
    refine ⟨rfl, ?_⟩
    have he : (takeChars 50 msg).length = (msg.toList.take 50).length := rfl
    rw [he, List.length_take]
    exact min_le_left _ _
  · intro url
    rfl

/-- C7: `OrderItem` validation enforces scoops ∈ [1,5] — a request holding
an item with scoops < 1 or scoops > 5 is rejected with a validation failure
and the store is untouched, while scoops = 1 and scoops = 5 pass the item
constraints. -/
theorem C7_scoops_bounds :
    (∀ (st : Store) (p : CreateOrder) (it : OrderItem), it ∈ p.items →
      it.scoops < 1 ∨ 5 < it.scoops →
      (post_api_orders st p).1 = Except.error "RequestValidationError" ∧
      (post_api_orders st p).2 = st) ∧
    (∀ it : OrderItem, 0 ≤ it.price → it.scoops = 1 → it.valid = true) ∧
    (∀ it : OrderItem, 0 ≤ it.price → it.scoops = 5 → it.valid = true) := by
  refine ⟨?_, ?_, ?_⟩
  · intro st p it hmem hbad
    have hvalid : p.valid = false := by
      apply Bool.eq_false_iff.mpr
      intro hall
      have hv := (orderItem_valid_iff it).mp (List.all_eq_true.mp hall it hmem)
      omega
    constructor <;> simp [post_api_orders, hvalid]
  · intro it hp h1
    rw [orderItem_valid_iff]
    exact ⟨le_of_eq h1.symm, by omega, hp⟩
  · intro it hp h5
    rw [orderItem_valid_iff]
    exact ⟨by omega, le_of_eq h5, hp⟩

/-- An item whose scoop count exceeds the upper bound. -/
def badScoopsItem : OrderItem := ⟨"1", "Vanilla Bean", 6, 1⟩

/-- A request carrying the out-of-range item. -/
def badScoopsOrder : CreateOrder := ⟨"Alice", "555-0100", [badScoopsItem], none⟩

/-- C7 witness: a request carrying a 6-scoop item is rejected with the store
untouched, and 1-scoop and 5-scoop items pass the constraints. -/
theorem C7_scoops_bounds_witness :
    (badScoopsItem ∈ badScoopsOrder.items ∧ 5 < badScoopsItem.scoops ∧
      (post_api_orders Store.empty badScoopsOrder).1 =
        Except.error "RequestValidationError" ∧
      (post_api_orders Store.empty badScoopsOrder).2 = Store.empty) ∧
    (⟨"1", "Vanilla Bean", 1, 1⟩ : OrderItem).valid = true ∧
    (⟨"1", "Vanilla Bean", 5, 1⟩ : OrderItem).valid = true := by
  have hm : badScoopsItem ∈ badScoopsOrder.items := by with_unfolding_all decide
  have hb : badScoopsItem.scoops < 1 ∨ 5 < badScoopsItem.scoops :=
    Or.inr (by decide)
  have hpair := C7_scoops_bounds.1 Store.empty badScoopsOrder badScoopsItem hm hb
  exact ⟨⟨hm, by decide, hpair.1, hpair.2⟩,
    C7_scoops_bounds.2.1 _ (by with_unfolding_all decide) rfl,
    C7_scoops_bounds.2.2 _ (by with_unfolding_all decide) rfl⟩

/-- C8: an `Icecream` body with all optional fields omitted validates with
`is_available = true` and `tags = []`; and each monetary field is
constrained non-negative — a validated `Icecream` has price ≥ 0, a valid
`OrderItem` has price ≥ 0, and every accepted order response has
total ≥ 0. -/
theorem C8_defaults_monetary :
    (∀ (nm : String) (price : ℚ), 0 ≤ price →
      parse_icecream ⟨nm, none, price, none, none, none⟩ =
        Except.ok ⟨nm, none, price, [], none, true⟩) ∧
    (∀ (inp : IcecreamInput) (ic : Icecream),
      parse_icecream inp = Except.ok ic → 0 ≤ ic.price) ∧
    (∀ it : OrderItem, it.valid = true → 0 ≤ it.price) ∧
    (∀ (st : Store) (p : CreateOrder) (r : OrderResponse),
      (post_api_orders st p).1 = Except.ok r → 0 ≤ r.total) := by
  refine ⟨?_, ?_, ?_, ?_⟩
  · intro nm price hp
    simp [parse_icecream, not_lt.mpr hp]
  · intro inp ic h
    by_cases hc : inp.price < 0
    · simp [parse_icecream, hc] at h
    · simp only [parse_icecream, if_neg hc, Except.ok.injEq] at h
      rw [← h]
      exact not_lt.mp hc
  · intro it h
    exact ((orderItem_valid_iff it).mp h).2.2
  · intro st p r h
    by_cases hv : p.valid
    · by_cases ht : orderTotal p.items < 0
      · simp [post_api_orders, hv, create_order_endpoint, ht] at h
      · simp only [post_api_orders, hv, if_true, create_order_endpoint,
          if_neg ht, Except.ok.injEq] at h
        rw [← h]
        exact not_lt.mp ht
    · simp [post_api_orders, hv] at h

/-- C8 witness: concrete instances — the spec's flavor body with omitted
fields gets the defaults, a parsed flavor and the example item have
non-negative price, and the example order's accepted total is
non-negative. -/
theorem C8_defaults_monetary_witness :
    ((0 : ℚ) ≤ 3.5 ∧
      parse_icecream ⟨"Vanilla Bean", none, 3.5, none, none, none⟩ =
        Except.ok ⟨"Vanilla Bean", none, 3.5, [], none, true⟩) ∧
    (parse_icecream ⟨"Vanilla Bean", none, 3.5, none, none, none⟩ =
        Except.ok ⟨"Vanilla Bean", none, 3.5, [], none, true⟩ ∧
      (0 : ℚ) ≤ (⟨"Vanilla Bean", none, 3.5, [], none, true⟩ : Icecream).price) ∧
    (vanillaItem.valid = true ∧ (0 : ℚ) ≤ vanillaItem.price) ∧
    ((post_api_orders Store.empty vanillaOrder).1 = Except.ok ⟨"0", 7⟩ ∧
      (0 : ℚ) ≤ (⟨"0", 7⟩ : OrderResponse).total) := by
  have h35 : (0 : ℚ) ≤ 3.5 := by norm_num
  have hok : parse_icecream ⟨"Vanilla Bean", none, 3.5, none, none, none⟩ =
      Except.ok ⟨"Vanilla Bean", none, 3.5, [], none, true⟩ := by
    with_unfolding_all rfl
  have hv : vanillaItem.valid = true := by with_unfolding_all decide
  have hpost : (post_api_orders Store.empty vanillaOrder).1 = Except.ok ⟨"0", 7⟩ := by
    with_unfolding_all rfl
  exact ⟨⟨h35, C8_defaults_monetary.1 "Vanilla Bean" 3.5 h35⟩,
    ⟨hok, C8_defaults_monetary.2.1 _ _ hok⟩,
    ⟨hv, C8_defaults_monetary.2.2.1 _ hv⟩,
    ⟨hpost, C8_defaults_monetary.2.2.2 _ _ _ hpost⟩⟩

/-- C9 (counterexample): two runs that differ only in the set value of
`DATABASE_URL` — one set to the empty string, one to a connection string —
produce different `database_url` fields ("❌ Not Set" vs "✅ Set"), because
the code tests Python truthiness, not presence. -/
theorem C9_counterexample :
    (test_database (some "") (DbState.working none [])).database_url ≠
      (test_database (some "mongodb://user:pw@host/db")
        (DbState.working none [])).database_url := by
  decide

/-- C9 (amended): the `database_url` field reports only whether
`DATABASE_URL` is set to a non-empty string, never its value — any two runs
with non-empty values agree on the field, and the field only ever takes the
values `none`, "✅ Set" or "❌ Not Set". -/
theorem C9_database_url_presence_only :
    (∀ (u1 u2 : String) (s : DbState), u1 ≠ "" → u2 ≠ "" →
      (test_database (some u1) s).database_url =
        (test_database (some u2) s).database_url) ∧
    (∀ (url : Option String) (s : DbState),
      (test_database url s).database_url = none ∨
      (test_database url s).database_url = some "✅ Set" ∨
      (test_database url s).database_url = some "❌ Not Set") := by
  constructor
  · intro u1 u2 s h1 h2
    have e1 : envTruthy (some u1) = true := by
      simp only [envTruthy, Bool.not_eq_true']
      exact Bool.eq_false_iff.mpr fun hh => h1 ((String.isEmpty_iff u1).mp hh)
    have e2 : envTruthy (some u2) = true := by
      simp only [envTruthy, Bool.not_eq_true']
      exact Bool.eq_false_iff.mpr fun hh => h2 ((String.isEmpty_iff u2).mp hh)
    cases s <;> simp [test_database, e1, e2]
  · intro url s
    cases s with
    | absent => exact Or.inl rfl
    | listFails nm msg =>
        cases he : envTruthy url
        · exact Or.inr (Or.inr (by simp [test_database, he]))
        · exact Or.inr (Or.inl (by simp [test_database, he]))
    | working nm cols =>
        cases he : envTruthy url
        · exact Or.inr (Or.inr (by simp [test_database, he]))
        · exact Or.inr (Or.inl (by simp [test_database, he]))

/-- C9 witness: two concrete non-empty connection strings yield identical
`database_url` fields. -/
theorem C9_database_url_presence_only_witness :
    ("mongodb://a" ≠ "") ∧ ("mongodb://b" ≠ "") ∧
    (test_database (some "mongodb://a") (DbState.working none [])).database_url =
      (test_database (some "mongodb://b") (DbState.working none [])).database_url :=
  ⟨by decide, by decide,
    C9_database_url_presence_only.1 "mongodb://a" "mongodb://b"
      (DbState.working none []) (by decide) (by decide)⟩

/-- C10: seeding an empty store inserts exactly four documents whose names
are, in order, Vanilla Bean, Dark Chocolate, Strawberry Swirl and Mint Choco
Chip, each with `is_available = true` and a price of 3.5 or 3.75 — prices
that are non-negative, as the `Icecream` schema requires. -/
theorem C10_seed_contents (st : Store) (h : st.docs "icecream" = []) :
    ((seed_flavors st).2.docs "icecream").map (fun d => getField d "name") =
      [some (Value.str "Vanilla Bean"), some (Value.str "Dark Chocolate"),
        some (Value.str "Strawberry Swirl"), some (Value.str "Mint Choco Chip")] ∧
    (∀ d ∈ (seed_flavors st).2.docs "icecream",
      getField d "is_available" = some (Value.bool true) ∧
      (getField d "price" = some (Value.num 3.5) ∨
        getField d "price" = some (Value.num 3.75))) ∧
    ((0 : ℚ) ≤ 3.5 ∧ (0 : ℚ) ≤ 3.75) := by
  rw [(seed_flavors_of_empty st h).2]
  with_unfolding_all decide

/-- C10 witness: seeding the empty store yields the four demo flavors in
their fixed order. -/
theorem C10_seed_contents_witness :
    Store.empty.docs "icecream" = [] ∧
    ((seed_flavors Store.empty).2.docs "icecream").map (fun d => getField d "name") =
      [some (Value.str "Vanilla Bean"), some (Value.str "Dark Chocolate"),
        some (Value.str "Strawberry Swirl"), some (Value.str "Mint Choco Chip")] :=
  ⟨rfl, (C10_seed_contents Store.empty rfl).1⟩

end IcecreamShop
